import Mathlib

/-!
Shallow embedding of the multi-tenant task request handler
(src/app/src/handler.py): an AWS-Lambda-style CRUD handler over a single
key-value table. Requests carry a method, path parameters and a raw body;
the handler validates them, derives a composite storage key and performs
one of four operations against the table collaborator.

The table and the JSON parser are external collaborators; their behaviour
in one invocation is captured by a `World` of oracles (the parser function,
the generated uuid, and the outcome each table call would have). Every
handler function returns the response it produces (or the exception it
re-raises) together with the list of store calls it issued.
-/

namespace TaskHandler

/-- JSON values, covering the fragment the handler manipulates
(scalars and objects; object fields keep insertion order, as Python dicts do). -/
inductive JVal where
  | null
  | bool (b : Bool)
  | num (n : Int)
  | str (s : String)
  | obj (fields : List (String × JVal))

/-- A stored row / JSON object body: ordered association list of fields. -/
abbrev Item := List (String × JVal)

/-- Python exceptions relevant to the handler: botocore ClientError carries an
error code (handler.py line 174 reads it); any other exception is collapsed to
its message. -/
inductive Exn where
  | clientError (code : String)
  | other (msg : String)
deriving DecidableEq

/-- The HTTP-shaped result the handler returns (handler.py `response`,
line 21). `json.dumps` is modelled as the identity on the JSON value. -/
structure Resp where
  statusCode : Nat
  body : JVal
  headers : List (String × String)

/-- Model of `response` (handler.py line 21): fixed permissive CORS headers. -/
def response (status : Nat) (body : JVal) : Resp :=
  { statusCode := status, body := body,
    headers := [("Content-Type", "application/json"),
                ("Access-Control-Allow-Origin", "*"),
                ("Access-Control-Allow-Methods", "*")] }

/-- Model of `build_keys` (handler.py line 38): PK is the f-string
"tenant#TENANT#user#USER"; SK is "task#TASKID" when task_id is truthy
(in Python both None and the empty string are falsy), else None. -/
def build_keys (tenant_id user_id : String) (task_id : Option String) :
    String × Option String :=
  ("tenant#" ++ tenant_id ++ "#user#" ++ user_id,
   match task_id with
   | some t => if t = "" then none else some ("task#" ++ t)
   | none => none)

/-- Python truthiness of an optional string: None and "" are falsy. -/
def pyTruthy : Option String → Bool
  | none => false
  | some s => !(s == "")

/-- Model of `validate_path` (handler.py line 47): `if not tenant_id or not user_id`.
Returns the 400 response when validation fails, none when it passes. -/
def validate_path (tenant_id user_id : Option String) : Option Resp :=
  if !(pyTruthy tenant_id) || !(pyTruthy user_id) then
    some (response 400 (.obj [("error", .str "Missing tenantId or userId")]))
  else none

/-- The "body" field of the gateway event: the key may be absent from the
event dict, present with value null, or present as a raw string. -/
inductive BodyField where
  | absent
  | nullBody
  | rawStr (s : String)

/-- Path parameters of the gateway event (each key may be absent). -/
structure PathParams where
  tenantId : Option String
  userId : Option String
  taskId : Option String

/-- The gateway event as the handler reads it. -/
structure Event where
  httpMethod : Option String
  pathParameters : Option PathParams
  body : BodyField

/-- The 400 response of `validate_body` (handler.py line 58). -/
def invalidJsonResp : Resp :=
  response 400 (.obj [("error", .str "Invalid JSON in request body")])

/-- Model of `validate_body` (handler.py line 53): `json.loads(event.get("body", "\x7b\x7d"))`
inside try/except. An absent body key feeds the default string "\x7b\x7d" to the
parser; a null body makes `json.loads(None)` raise TypeError, caught by the
bare except; a raw string is parsed, a parse failure is caught. `parse`
abstracts `json.loads` on strings (none = raise). -/
def validate_body (parse : String → Option JVal) (event : Event) :
    Except Resp JVal :=
  match event.body with
  | .nullBody => .error invalidJsonResp
  | .absent =>
    match parse "\x7b\x7d" with
    | some j => .ok j
    | none => .error invalidJsonResp
  | .rawStr s =>
    match parse s with
    | some j => .ok j
    | none => .error invalidJsonResp

/-- First value bound to a key in an ordered field list (Python dict lookup;
a dict built by `json.loads` has no duplicate keys, so first = only). -/
def dictLookup (fs : List (String × JVal)) (k : String) : Option JVal :=
  (fs.find? (fun kv => kv.1 == k)).map (·.2)

/-- Python `k in data` (handler.py line 106): key membership on dicts,
substring test on strings, TypeError on scalars. -/
def pyContains (data : JVal) (k : String) : Except Exn Bool :=
  match data with
  | .obj fs => .ok (fs.any (fun kv => kv.1 == k))
  | .str s => .ok (decide (k.data <:+: s.data))
  | _ => .error (.other "TypeError: argument is not iterable")

/-- Python `data[k]` (handler.py line 118). -/
def pySubscript (data : JVal) (k : String) : Except Exn JVal :=
  match data with
  | .obj fs =>
    match dictLookup fs k with
    | some v => .ok v
    | none => .error (.other "KeyError")
  | _ => .error (.other "TypeError: not subscriptable by str")

/-- Python `data.get(k, dflt)` (handler.py lines 119 and 120); `data.get(k)`
is the dflt = null case. AttributeError on non-dicts. -/
def pyDictGet (data : JVal) (k : String) (dflt : JVal) : Except Exn JVal :=
  match data with
  | .obj fs => .ok ((dictLookup fs k).getD dflt)
  | _ => .error (.other "AttributeError: no attribute get")

/-- Python `data.items()` (handler.py line 157). AttributeError on non-dicts. -/
def pyItems (data : JVal) : Except Exn (List (String × JVal)) :=
  match data with
  | .obj fs => .ok fs
  | _ => .error (.other "AttributeError: no attribute items")

/-- One call issued to the DynamoDB table collaborator, with the exact
arguments the handler builds (keys, expressions, condition). -/
inductive StoreCall where
  | putItem (pk sk : String) (item : Item)
  | getItem (pk : String) (sk : Option String)
  | updateItem (pk : String) (sk : Option String) (updateExpression : String)
      (exprAttrValues : List (String × JVal)) (conditionExpression : String)
  | deleteItem (pk : String) (sk : Option String) (conditionExpression : String)

/-- Ambient nondeterminism of one invocation: the JSON parser, the uuid4
string the handler draws, and the outcome each table call would have if
issued (an error is the Python exception the boto3 call raises). -/
structure World where
  parse : String → Option JVal
  freshId : String
  putOutcome : Except Exn Unit
  getOutcome : Except Exn (Option Item)
  updOutcome : Except Exn (Option Item)
  delOutcome : Except Exn Unit

/-- Model of `create_task` (handler.py line 101): body validation, title requirement,
fresh id, item construction with defaults, unconditional put, 201. An
exception from the put (uncaught in the source) surfaces as `.error`. -/
def create_task (w : World) (pk tenant_id user_id : String) (event : Event) :
    Except Exn Resp × List StoreCall :=
  match validate_body w.parse event with
  | .error errResp => (.ok errResp, [])
  | .ok data =>
    match pyContains data "title" with
    | .error e => (.error e, [])
    | .ok hasTitle =>
      if !hasTitle then
        (.ok (response 400 (.obj [("error", .str "title is required")])), [])
      else
        let task_id := w.freshId
        let sk := "task#" ++ task_id
        match pySubscript data "title" with
        | .error e => (.error e, [])
        | .ok title =>
          match pyDictGet data "description" .null with
          | .error e => (.error e, [])
          | .ok desc =>
            match pyDictGet data "status" (.str "pending") with
            | .error e => (.error e, [])
            | .ok stat =>
              let item : Item :=
                [("PK", .str pk), ("SK", .str sk), ("taskId", .str task_id),
                 ("tenantId", .str tenant_id), ("userId", .str user_id),
                 ("title", title), ("description", desc), ("status", stat)]
              match w.putOutcome with
              | .error e => (.error e, [.putItem pk sk item])
              | .ok _ => (.ok (response 201 (.obj item)), [.putItem pk sk item])

/-- Model of `get_task` (handler.py line 130): any exception from the get is caught
and downgraded to 500 (and logged); a result without an "Item" key is 404;
otherwise 200 with the stored item. -/
def get_task (w : World) (pk : String) (sk : Option String) :
    Except Exn Resp × List StoreCall :=
  let calls := [StoreCall.getItem pk sk]
  match w.getOutcome with
  | .error _ =>
    (.ok (response 500 (.obj [("error", .str "Internal server error")])), calls)
  | .ok none =>
    (.ok (response 404 (.obj [("error", .str "Task not found")])), calls)
  | .ok (some item) => (.ok (response 200 (.obj item)), calls)

/-- The identity fields Update refuses to assign (handler.py line 152). -/
def protected_fields : List String := ["PK", "SK", "tenantId", "userId", "taskId"]

/-- Model of `update_task` (handler.py line 146): body validation, assignment list from
the non-protected body fields, 400 when empty, conditional update with
ALL_NEW; ConditionalCheckFailedException is 404, any other ClientError is
re-raised (`.error`), as is any non-ClientError exception. -/
def update_task (w : World) (pk : String) (sk : Option String) (event : Event) :
    Except Exn Resp × List StoreCall :=
  match validate_body w.parse event with
  | .error errResp => (.ok errResp, [])
  | .ok data =>
    match pyItems data with
    | .error e => (.error e, [])
    | .ok kvs =>
      let assigns := kvs.filter (fun kv => !(protected_fields.contains kv.1))
      let update_expr := assigns.map (fun kv => kv.1 ++ " = :" ++ kv.1)
      let expr_attr := assigns.map (fun kv => (":" ++ kv.1, kv.2))
      if update_expr = [] then
        (.ok (response 400 (.obj [("error", .str "No valid fields to update")])), [])
      else
        let call := StoreCall.updateItem pk sk
          ("SET " ++ String.intercalate ", " update_expr) expr_attr
          "attribute_exists(PK)"
        match w.updOutcome with
        | .error e =>
          if e = .clientError "ConditionalCheckFailedException" then
            (.ok (response 404 (.obj [("error", .str "Task not found")])), [call])
          else (.error e, [call])
        | .ok result =>
          let updated_item := result.getD []
          (.ok (response 200 (.obj [("message", .str "Task updated"),
            ("task", .obj updated_item)])), [call])

/-- Model of `delete_task` (handler.py line 185): conditional delete;
ConditionalCheckFailedException is 404, any other exception is re-raised;
success is 200. -/
def delete_task (w : World) (pk : String) (sk : Option String) :
    Except Exn Resp × List StoreCall :=
  let call := StoreCall.deleteItem pk sk "attribute_exists(PK)"
  match w.delOutcome with
  | .error e =>
    if e = .clientError "ConditionalCheckFailedException" then
      (.ok (response 404 (.obj [("error", .str "Task not found")])), [call])
    else (.error e, [call])
  | .ok _ => (.ok (response 200 (.obj [("message", .str "Task deleted")])), [call])

/-- Python str() of the optional method, as the f-string on line 95 renders it. -/
def optStr : Option String → String
  | none => "None"
  | some s => s

/-- Model of `lambda_handler` (handler.py line 64): read method and path parameters
(`or \x7b\x7d` makes an absent or null pathParameters an empty dict), validate
the path, build keys, dispatch on the method string. After validation the
tenant and user values are some nonempty strings, so `.getD ""` is exact. -/
def lambda_handler (w : World) (event : Event) :
    Except Exn Resp × List StoreCall :=
  let path_params :=
    event.pathParameters.getD { tenantId := none, userId := none, taskId := none }
  let tenant_id := path_params.tenantId
  let user_id := path_params.userId
  let task_id := path_params.taskId
  match validate_path tenant_id user_id with
  | some err => (.ok err, [])
  | none =>
    let t := tenant_id.getD ""
    let u := user_id.getD ""
    let ks := build_keys t u task_id
    if event.httpMethod = some "POST" then
      create_task w ks.1 t u event
    else if event.httpMethod = some "GET" then
      get_task w ks.1 ks.2
    else if event.httpMethod = some "PUT" then
      update_task w ks.1 ks.2 event
    else if event.httpMethod = some "DELETE" then
      delete_task w ks.1 ks.2
    else
      (.ok (response 400 (.obj [("error",
        .str ("Unsupported method " ++ optStr event.httpMethod))])), [])

/-- Modelled from the spec: the external Key-Value Store collaborator
(spec sections 2 and 5). State is a finite map from (PK, SK) to the stored
item, as a list of entries with the newest first. -/
def Store := List ((String × String) × Item)

/-- Modelled from the spec: PutItem overwrites unconditionally. -/
def storePut (store : Store) (pk sk : String) (item : Item) : Store :=
  ((pk, sk), item) :: store.filter (fun e => !(e.1.1 == pk && e.1.2 == sk))

/-- Modelled from the spec: GetItem returns the item at the key when present. -/
def storeLookup (store : Store) (pk sk : String) : Option Item :=
  (store.find? (fun e => e.1.1 == pk && e.1.2 == sk)).map (·.2)

/-- Modelled from the spec: effect of one store call on the store state.
Only PutItem is needed by the verified round-trip property; GetItem reads,
and the Update/Delete mutations are left as the identity here. -/
def applyCall (store : Store) : StoreCall → Store
  | .putItem pk sk item => storePut store pk sk item
  | _ => store

/-- Modelled from the spec: effect of a call trace on the store state. -/
def applyCalls (store : Store) (calls : List StoreCall) : Store :=
  calls.foldl applyCall store

/-- The item Create stores for a parsed object body `fields`
(handler.py line 112): title is the title value from the body, description
defaults to null, status defaults to "pending". -/
def created_item (pk tenant_id user_id task_id : String)
    (fields : List (String × JVal)) : Item :=
  [("PK", .str pk), ("SK", .str ("task#" ++ task_id)),
   ("taskId", .str task_id),
   ("tenantId", .str tenant_id), ("userId", .str user_id),
   ("title", (dictLookup fields "title").getD .null),
   ("description", (dictLookup fields "description").getD .null),
   ("status", (dictLookup fields "status").getD (.str "pending"))]

/-! ## Helper lemmas -/

theorem validate_path_ok {t u : String} (ht : t ≠ "") (hu : u ≠ "") :
    validate_path (some t) (some u) = none := by
  simp [validate_path, pyTruthy, ht, hu]

/-- Routing shape of `lambda_handler` once the path validates. -/
theorem lambda_handler_eq (w : World) (ev : Event) (pp : PathParams) (t u : String)
    (hpp : ev.pathParameters = some pp) (ht : pp.tenantId = some t)
    (hu : pp.userId = some u) (ht' : t ≠ "") (hu' : u ≠ "") :
    lambda_handler w ev =
      if ev.httpMethod = some "POST" then
        create_task w (build_keys t u pp.taskId).1 t u ev
      else if ev.httpMethod = some "GET" then
        get_task w (build_keys t u pp.taskId).1 (build_keys t u pp.taskId).2
      else if ev.httpMethod = some "PUT" then
        update_task w (build_keys t u pp.taskId).1 (build_keys t u pp.taskId).2 ev
      else if ev.httpMethod = some "DELETE" then
        delete_task w (build_keys t u pp.taskId).1 (build_keys t u pp.taskId).2
      else
        (.ok (response 400 (.obj [("error",
          .str ("Unsupported method " ++ optStr ev.httpMethod))])), []) := by
  unfold lambda_handler
  rw [hpp]
  simp only [Option.getD_some, ht, hu, validate_path_ok ht' hu']

/-- Routing of a POST with a valid path. -/
theorem route_post (w : World) (ev : Event) (pp : PathParams) (t u : String)
    (hm : ev.httpMethod = some "POST")
    (hpp : ev.pathParameters = some pp) (ht : pp.tenantId = some t)
    (hu : pp.userId = some u) (ht' : t ≠ "") (hu' : u ≠ "") :
    lambda_handler w ev = create_task w (build_keys t u pp.taskId).1 t u ev := by
  rw [lambda_handler_eq w ev pp t u hpp ht hu ht' hu', hm]
  simp

/-- Routing of a GET with a valid path. -/
theorem route_get (w : World) (ev : Event) (pp : PathParams) (t u : String)
    (hm : ev.httpMethod = some "GET")
    (hpp : ev.pathParameters = some pp) (ht : pp.tenantId = some t)
    (hu : pp.userId = some u) (ht' : t ≠ "") (hu' : u ≠ "") :
    lambda_handler w ev =
      get_task w (build_keys t u pp.taskId).1 (build_keys t u pp.taskId).2 := by
  rw [lambda_handler_eq w ev pp t u hpp ht hu ht' hu', hm]
  simp

/-- Routing of a PUT with a valid path. -/
theorem route_put (w : World) (ev : Event) (pp : PathParams) (t u : String)
    (hm : ev.httpMethod = some "PUT")
    (hpp : ev.pathParameters = some pp) (ht : pp.tenantId = some t)
    (hu : pp.userId = some u) (ht' : t ≠ "") (hu' : u ≠ "") :
    lambda_handler w ev =
      update_task w (build_keys t u pp.taskId).1 (build_keys t u pp.taskId).2 ev := by
  rw [lambda_handler_eq w ev pp t u hpp ht hu ht' hu', hm]
  simp

/-- Routing of a DELETE with a valid path. -/
theorem route_delete (w : World) (ev : Event) (pp : PathParams) (t u : String)
    (hm : ev.httpMethod = some "DELETE")
    (hpp : ev.pathParameters = some pp) (ht : pp.tenantId = some t)
    (hu : pp.userId = some u) (ht' : t ≠ "") (hu' : u ≠ "") :
    lambda_handler w ev =
      delete_task w (build_keys t u pp.taskId).1 (build_keys t u pp.taskId).2 := by
  rw [lambda_handler_eq w ev pp t u hpp ht hu ht' hu', hm]
  simp

/-- Splitting a character list at a separator char absent from the left part
is unique. -/
theorem sep_split_unique (a : List Char) : ∀ (c r s : List Char),
    '#' ∉ a → '#' ∉ c → a ++ '#' :: r = c ++ '#' :: s → a = c ∧ r = s := by
  induction a with
  | nil =>
    intro c r s _ hc h
    cases c with
    | nil => simpa using h
    | cons y ys =>
      simp only [List.nil_append, List.cons_append, List.cons.injEq] at h
      exact absurd (by rw [← h.1]; exact List.mem_cons_self _ _) hc
  | cons x xs ih =>
    intro c r s ha hc h
    cases c with
    | nil =>
      simp only [List.cons_append, List.nil_append, List.cons.injEq] at h
      exact absurd (by rw [h.1]; exact List.mem_cons_self _ _) ha
    | cons y ys =>
      simp only [List.cons_append, List.cons.injEq] at h
      obtain ⟨hxy, htl⟩ := h
      simp only [List.mem_cons, not_or] at ha hc
      obtain ⟨rest, hrs⟩ := ih ys r s ha.2 hc.2 htl
      exact ⟨by rw [hxy, rest], hrs⟩

/-! ## Claim theorems -/

/-- C1 (counterexample): primary-key injectivity fails for arbitrary
strings: the distinct pairs ("a#user#b", "c") and ("a", "b#user#c") build
the same primary key "tenant#a#user#b#user#c". -/
theorem build_keys_pk_collision :
    (build_keys "a#user#b" "c" none).1 = (build_keys "a" "b#user#c" none).1 ∧
    (("a#user#b", "c") : String × String) ≠ ("a", "b#user#c") := by
  constructor
  · decide
  · decide

/-- C1 (amended): `build_keys` is deterministic; distinct (tenantId, userId)
pairs never produce the same primary key provided the tenant ids contain no
"#" character (the separator of the key scheme); distinct taskIds under the
same tenant and user never produce the same secondary key. -/
theorem build_keys_deterministic_injective :
    (∀ (t u : String) (tid : Option String), build_keys t u tid = build_keys t u tid) ∧
    (∀ (t1 u1 t2 u2 : String) (x y : Option String),
      '#' ∉ t1.data → '#' ∉ t2.data →
      (build_keys t1 u1 x).1 = (build_keys t2 u2 y).1 → t1 = t2 ∧ u1 = u2) ∧
    (∀ (t u tid1 tid2 : String),
      (build_keys t u (some tid1)).2 = (build_keys t u (some tid2)).2 →
      tid1 = tid2) := by
  refine ⟨fun _ _ _ => rfl, ?_, ?_⟩
  · intro t1 u1 t2 u2 x y h1 h2 h
    have hd := congrArg String.data h
    simp only [build_keys, String.data_append, List.append_assoc] at hd
    have hd2 := List.append_cancel_left hd
    have hcons1 : "#user#".data ++ u1.data = '#' :: ("user#".data ++ u1.data) := rfl
    have hcons2 : "#user#".data ++ u2.data = '#' :: ("user#".data ++ u2.data) := rfl
    rw [hcons1, hcons2] at hd2
    obtain ⟨hts, hus⟩ := sep_split_unique t1.data t2.data
      ("user#".data ++ u1.data) ("user#".data ++ u2.data) h1 h2 hd2
    exact ⟨String.ext hts, String.ext (List.append_cancel_left hus)⟩
  · intro t u tid1 tid2 h
    simp only [build_keys] at h
    by_cases e1 : tid1 = ""
    · by_cases e2 : tid2 = ""
      · rw [e1, e2]
      · rw [if_pos e1, if_neg e2] at h
        exact absurd h (by simp)
    · by_cases e2 : tid2 = ""
      · rw [if_neg e1, if_pos e2] at h
        exact absurd h (by simp)
      · rw [if_neg e1, if_neg e2] at h
        have h2 : "task#" ++ tid1 = "task#" ++ tid2 := Option.some.inj h
        have hd := congrArg String.data h2
        simp only [String.data_append] at hd
        exact String.ext (List.append_cancel_left hd)

/-- C1 (witness): the amended injectivity applied at concrete inputs with
hash-free tenant ids. -/
theorem build_keys_injective_witness :
    ("acme" = "acme" ∧ "alice" = "alice") ∧ "t1" = "t1" :=
  ⟨build_keys_deterministic_injective.2.1 "acme" "alice" "acme" "alice"
      none none (by decide) (by decide) rfl,
   build_keys_deterministic_injective.2.2 "acme" "alice" "t1" "t1" rfl⟩

/-- A falsy tenant or user value makes `validate_path` fail with the 400. -/
theorem validate_path_fail {t u : Option String}
    (h : (t = none ∨ t = some "") ∨ (u = none ∨ u = some "")) :
    validate_path t u =
      some (response 400 (.obj [("error", .str "Missing tenantId or userId")])) := by
  rcases h with (h | h) | (h | h) <;> subst h <;> simp [validate_path, pyTruthy]

/-- C7: any request whose tenantId or userId is absent from the path
parameters (including an absent pathParameters dict) or is the empty string
gets the 400 "Missing tenantId or userId" response, whatever the method and
body, and no store call is issued. -/
theorem missing_path_params_400 (w : World) (ev : Event)
    (h : ((ev.pathParameters.getD ⟨none, none, none⟩).tenantId = none ∨
          (ev.pathParameters.getD ⟨none, none, none⟩).tenantId = some "") ∨
         ((ev.pathParameters.getD ⟨none, none, none⟩).userId = none ∨
          (ev.pathParameters.getD ⟨none, none, none⟩).userId = some "")) :
    lambda_handler w ev =
      (.ok (response 400 (.obj [("error", .str "Missing tenantId or userId")])),
       []) := by
  have hv := validate_path_fail h
  simp only [lambda_handler, hv]

/-- C7 (witness): a DELETE with no path parameters at all gets the 400. -/
theorem missing_path_params_400_witness :
    lambda_handler
      { parse := fun _ => none, freshId := "id", putOutcome := .ok (),
        getOutcome := .ok none, updOutcome := .ok none, delOutcome := .ok () }
      { httpMethod := some "DELETE", pathParameters := none, body := .absent } =
      (.ok (response 400 (.obj [("error", .str "Missing tenantId or userId")])),
       []) :=
  missing_path_params_400 _ _ (Or.inl (Or.inl rfl))

/-- A concrete invocation environment used by witnesses: a parser that knows
the empty-object source text, a fixed uuid, and successful store outcomes. -/
def wBase : World :=
  { parse := fun s => if s = "\x7b\x7d" then some (.obj []) else none,
    freshId := "uuid-1", putOutcome := .ok (),
    getOutcome := .ok none, updOutcome := .ok none, delOutcome := .ok () }

/-- C9: with a valid path, dispatch depends only on the method string:
POST runs Create, GET runs Get, PUT runs Update, DELETE runs Delete, and
any other method string m yields 400 "Unsupported method m" with no store
call issued. -/
theorem dispatch_on_method (w : World) (ev : Event) (pp : PathParams)
    (t u : String)
    (hpp : ev.pathParameters = some pp) (ht : pp.tenantId = some t)
    (hu : pp.userId = some u) (ht' : t ≠ "") (hu' : u ≠ "") :
    (ev.httpMethod = some "POST" →
      lambda_handler w ev = create_task w (build_keys t u pp.taskId).1 t u ev) ∧
    (ev.httpMethod = some "GET" →
      lambda_handler w ev =
        get_task w (build_keys t u pp.taskId).1 (build_keys t u pp.taskId).2) ∧
    (ev.httpMethod = some "PUT" →
      lambda_handler w ev =
        update_task w (build_keys t u pp.taskId).1 (build_keys t u pp.taskId).2 ev) ∧
    (ev.httpMethod = some "DELETE" →
      lambda_handler w ev =
        delete_task w (build_keys t u pp.taskId).1 (build_keys t u pp.taskId).2) ∧
    (∀ m : String, ev.httpMethod = some m →
      m ∉ (["POST", "GET", "PUT", "DELETE"] : List String) →
      lambda_handler w ev =
        (.ok (response 400 (.obj [("error",
          .str ("Unsupported method " ++ m))])), [])) := by
  have hroute := lambda_handler_eq w ev pp t u hpp ht hu ht' hu'
  refine ⟨fun hm => ?_, fun hm => ?_, fun hm => ?_, fun hm => ?_,
    fun m hm hnot => ?_⟩
  · rw [hroute, hm]; simp
  · rw [hroute, hm]; simp
  · rw [hroute, hm]; simp
  · rw [hroute, hm]; simp
  · simp only [List.mem_cons, List.not_mem_nil, not_or] at hnot
    rw [hroute, hm]
    simp [optStr, hnot.1, hnot.2.1, hnot.2.2.1, hnot.2.2.2.1]

/-- C9 (witness): a PATCH request with a valid path gets the unsupported
method 400. -/
theorem dispatch_on_method_witness :
    lambda_handler wBase
      { httpMethod := some "PATCH",
        pathParameters := some ⟨some "T", some "U", none⟩, body := .absent } =
      (.ok (response 400 (.obj [("error",
        .str ("Unsupported method " ++ "PATCH"))])), []) :=
  (dispatch_on_method wBase _ _ "T" "U" rfl rfl rfl (by decide) (by decide)).2.2.2.2
    "PATCH" rfl (by decide)

/-- C4: GET with a valid path: a store error is caught and downgraded to
500, a result without an item is 404, and a present item is returned
verbatim with 200; in each case exactly one GetItem call is issued. -/
theorem get_task_error_handling (w : World) (ev : Event) (pp : PathParams)
    (t u : String)
    (hm : ev.httpMethod = some "GET")
    (hpp : ev.pathParameters = some pp) (ht : pp.tenantId = some t)
    (hu : pp.userId = some u) (ht' : t ≠ "") (hu' : u ≠ "") :
    (∀ e, w.getOutcome = .error e →
      lambda_handler w ev =
        (.ok (response 500 (.obj [("error", .str "Internal server error")])),
         [.getItem (build_keys t u pp.taskId).1 (build_keys t u pp.taskId).2])) ∧
    (w.getOutcome = .ok none →
      lambda_handler w ev =
        (.ok (response 404 (.obj [("error", .str "Task not found")])),
         [.getItem (build_keys t u pp.taskId).1 (build_keys t u pp.taskId).2])) ∧
    (∀ item, w.getOutcome = .ok (some item) →
      lambda_handler w ev =
        (.ok (response 200 (.obj item)),
         [.getItem (build_keys t u pp.taskId).1 (build_keys t u pp.taskId).2])) := by
  have hroute := lambda_handler_eq w ev pp t u hpp ht hu ht' hu'
  refine ⟨fun e he => ?_, fun he => ?_, fun item he => ?_⟩ <;>
    rw [hroute, hm] <;> simp [get_task, he]

/-- C4 (witness): a failing store read on a valid GET yields the 500. -/
theorem get_task_error_handling_witness :
    lambda_handler { wBase with getOutcome := .error (.other "boom") }
      { httpMethod := some "GET",
        pathParameters := some ⟨some "T", some "U", some "t1"⟩,
        body := .absent } =
      (.ok (response 500 (.obj [("error", .str "Internal server error")])),
       [.getItem (build_keys "T" "U" (some "t1")).1
          (build_keys "T" "U" (some "t1")).2]) :=
  (get_task_error_handling _ _ _ "T" "U" rfl rfl rfl rfl (by decide)
    (by decide)).1 (.other "boom") rfl

/-- C5: for Update and Delete requests that reach the store, a
conditional-check failure is translated to 404 "Task not found"; any other
store error is re-raised uncaught out of the handler (never downgraded to a
500 response); a successful Delete is 200 "Task deleted" and a successful
Update is 200 "Task updated" with the new attributes. -/
theorem update_delete_error_handling :
    (∀ (w : World) (ev : Event) (pp : PathParams) (t u : String)
       (fields : List (String × JVal)),
      ev.httpMethod = some "PUT" →
      ev.pathParameters = some pp → pp.tenantId = some t →
      pp.userId = some u → t ≠ "" → u ≠ "" →
      validate_body w.parse ev = .ok (.obj fields) →
      fields.filter (fun kv => !(protected_fields.contains kv.1)) ≠ [] →
      ((w.updOutcome = .error (.clientError "ConditionalCheckFailedException") →
        (lambda_handler w ev).1 =
          .ok (response 404 (.obj [("error", .str "Task not found")]))) ∧
       (∀ e, w.updOutcome = .error e →
         e ≠ .clientError "ConditionalCheckFailedException" →
         (lambda_handler w ev).1 = .error e) ∧
       (∀ r, w.updOutcome = .ok r →
         (lambda_handler w ev).1 =
           .ok (response 200 (.obj [("message", .str "Task updated"),
             ("task", .obj (r.getD []))]))))) ∧
    (∀ (w : World) (ev : Event) (pp : PathParams) (t u : String),
      ev.httpMethod = some "DELETE" →
      ev.pathParameters = some pp → pp.tenantId = some t →
      pp.userId = some u → t ≠ "" → u ≠ "" →
      ((w.delOutcome = .error (.clientError "ConditionalCheckFailedException") →
        (lambda_handler w ev).1 =
          .ok (response 404 (.obj [("error", .str "Task not found")]))) ∧
       (∀ e, w.delOutcome = .error e →
         e ≠ .clientError "ConditionalCheckFailedException" →
         (lambda_handler w ev).1 = .error e) ∧
       (w.delOutcome = .ok () →
         (lambda_handler w ev).1 =
           .ok (response 200 (.obj [("message", .str "Task deleted")]))))) := by
  constructor
  · intro w ev pp t u fields hm hpp ht hu ht' hu' hb hne
    have hroute := route_put w ev pp t u hm hpp ht hu ht' hu'
    have hne' : ¬ ((fields.filter (fun kv => !(protected_fields.contains kv.1))).map
        (fun kv => kv.1 ++ " = :" ++ kv.1) = []) :=
      fun h => hne (List.map_eq_nil_iff.mp h)
    refine ⟨fun he => ?_, fun e he hng => ?_, fun r he => ?_⟩
    · rw [hroute]; unfold update_task; rw [hb, he]
      simp only [pyItems]; rw [if_neg hne']; simp
    · rw [hroute]; unfold update_task; rw [hb, he]
      simp only [pyItems]; rw [if_neg hne']; simp [hng]
    · rw [hroute]; unfold update_task; rw [hb, he]
      simp only [pyItems]; rw [if_neg hne']
  · intro w ev pp t u hm hpp ht hu ht' hu'
    have hroute := route_delete w ev pp t u hm hpp ht hu ht' hu'
    refine ⟨fun he => ?_, fun e he hng => ?_, fun he => ?_⟩
    · rw [hroute]; unfold delete_task; rw [he]; simp
    · rw [hroute]; unfold delete_task; rw [he]; simp [hng]
    · rw [hroute]; unfold delete_task; rw [he]

/-- C5 (witness): a conditional-check failure on a PUT with one assignable
field is a 404, and a non-conditional store error on a DELETE is re-raised. -/
theorem update_delete_error_handling_witness :
    (lambda_handler
      { wBase with
        parse := fun _ => some (.obj [("status", .str "done")]),
        updOutcome := .error (.clientError "ConditionalCheckFailedException") }
      { httpMethod := some "PUT",
        pathParameters := some ⟨some "T", some "U", some "t1"⟩,
        body := .rawStr "ignored" }).1 =
      .ok (response 404 (.obj [("error", .str "Task not found")])) ∧
    (lambda_handler { wBase with delOutcome := .error (.other "boom") }
      { httpMethod := some "DELETE",
        pathParameters := some ⟨some "T", some "U", some "t1"⟩,
        body := .absent }).1 = .error (.other "boom") :=
  ⟨(update_delete_error_handling.1
      { wBase with
        parse := fun _ => some (.obj [("status", .str "done")]),
        updOutcome := .error (.clientError "ConditionalCheckFailedException") }
      { httpMethod := some "PUT",
        pathParameters := some ⟨some "T", some "U", some "t1"⟩,
        body := .rawStr "ignored" }
      ⟨some "T", some "U", some "t1"⟩ "T" "U" [("status", .str "done")]
      rfl rfl rfl rfl (by decide) (by decide) rfl
      (by simp [protected_fields])).1 rfl,
   (update_delete_error_handling.2
      { wBase with delOutcome := .error (.other "boom") }
      { httpMethod := some "DELETE",
        pathParameters := some ⟨some "T", some "U", some "t1"⟩,
        body := .absent }
      ⟨some "T", some "U", some "t1"⟩ "T" "U" rfl rfl rfl rfl (by decide)
      (by decide)).2.1 (.other "boom") rfl (by decide)⟩

/-- A key is absent from a field list iff no field matches it. -/
theorem dictLookup_none_iff (fs : List (String × JVal)) (k : String) :
    dictLookup fs k = none ↔ fs.any (fun kv => kv.1 == k) = false := by
  simp [dictLookup, List.find?_eq_none, List.any_eq_false]

/-- A successful lookup means some field matches the key. -/
theorem dictLookup_some_any {fs : List (String × JVal)} {k : String} {v : JVal}
    (h : dictLookup fs k = some v) :
    fs.any (fun kv => kv.1 == k) = true := by
  simp only [dictLookup, Option.map_eq_some'] at h
  obtain ⟨kv, hfind, _⟩ := h
  have hp := @List.find?_some (String × JVal) (fun kv => kv.1 == k) kv fs hfind
  exact List.any_eq_true.mpr ⟨kv, List.mem_of_find?_eq_some hfind, hp⟩

/-- Reduction of a POST with a valid path, an object body holding a title,
and a successful put: the 201 response and the single put call. -/
theorem create_reduces (w : World) (ev : Event) (pp : PathParams)
    (t u : String) (fields : List (String × JVal)) (v : JVal)
    (hm : ev.httpMethod = some "POST")
    (hpp : ev.pathParameters = some pp) (ht : pp.tenantId = some t)
    (hu : pp.userId = some u) (ht' : t ≠ "") (hu' : u ≠ "")
    (hb : validate_body w.parse ev = .ok (.obj fields))
    (hv : dictLookup fields "title" = some v)
    (hput : w.putOutcome = .ok ()) :
    lambda_handler w ev =
      (.ok (response 201 (.obj
        (created_item ("tenant#" ++ t ++ "#user#" ++ u) t u w.freshId fields))),
       [.putItem ("tenant#" ++ t ++ "#user#" ++ u) ("task#" ++ w.freshId)
          (created_item ("tenant#" ++ t ++ "#user#" ++ u) t u w.freshId
            fields)]) := by
  rw [route_post w ev pp t u hm hpp ht hu ht' hu']
  unfold create_task; rw [hb]
  have hany := dictLookup_some_any hv
  simp [pyContains, pySubscript, pyDictGet, hany, hv, hput, created_item,
    build_keys]

/-- C3: for a PUT with a JSON object body, the update call sent to the store
assigns exactly the body fields outside the protected identity set
(PK, SK, tenantId, userId, taskId), so no identity field is ever assigned;
when no assignable field remains the handler returns 400 "No valid fields
to update" and issues no store call. -/
theorem update_task_frame (w : World) (ev : Event) (pp : PathParams)
    (t u : String) (fields : List (String × JVal))
    (hm : ev.httpMethod = some "PUT")
    (hpp : ev.pathParameters = some pp) (ht : pp.tenantId = some t)
    (hu : pp.userId = some u) (ht' : t ≠ "") (hu' : u ≠ "")
    (hb : validate_body w.parse ev = .ok (.obj fields)) :
    (fields.filter (fun kv => !(protected_fields.contains kv.1)) = [] →
      lambda_handler w ev =
        (.ok (response 400 (.obj [("error", .str "No valid fields to update")])),
         [])) ∧
    (fields.filter (fun kv => !(protected_fields.contains kv.1)) ≠ [] →
      (lambda_handler w ev).2 =
        [.updateItem (build_keys t u pp.taskId).1 (build_keys t u pp.taskId).2
          ("SET " ++ String.intercalate ", "
            ((fields.filter (fun kv => !(protected_fields.contains kv.1))).map
              (fun kv => kv.1 ++ " = :" ++ kv.1)))
          ((fields.filter (fun kv => !(protected_fields.contains kv.1))).map
            (fun kv => (":" ++ kv.1, kv.2)))
          "attribute_exists(PK)"] ∧
      ∀ kv ∈ fields.filter (fun kv => !(protected_fields.contains kv.1)),
        kv.1 ∉ protected_fields) := by
  have hroute := route_put w ev pp t u hm hpp ht hu ht' hu'
  constructor
  · intro hempty
    rw [hroute]; unfold update_task; rw [hb]
    simp only [pyItems]
    rw [if_pos (by rw [hempty]; rfl)]
  · intro hne
    have hne' : ¬ ((fields.filter (fun kv => !(protected_fields.contains kv.1))).map
        (fun kv => kv.1 ++ " = :" ++ kv.1) = []) :=
      fun h => hne (List.map_eq_nil_iff.mp h)
    constructor
    · rw [hroute]; unfold update_task; rw [hb]
      simp only [pyItems]
      rw [if_neg hne']
      cases hres : w.updOutcome with
      | error e =>
        by_cases hc : e = .clientError "ConditionalCheckFailedException" <;>
          simp [hc]
      | ok r => simp
    · intro kv hkv
      simpa using (List.mem_filter.mp hkv).2

/-- C3 (witness): a PUT whose body only names the protected field PK gets
the 400 with no store call. -/
theorem update_task_frame_witness :
    lambda_handler
      { wBase with parse := fun _ => some (.obj [("PK", .str "x")]) }
      { httpMethod := some "PUT",
        pathParameters := some ⟨some "T", some "U", some "t1"⟩,
        body := .rawStr "body" } =
      (.ok (response 400 (.obj [("error", .str "No valid fields to update")])),
       []) :=
  (update_task_frame
      { wBase with parse := fun _ => some (.obj [("PK", .str "x")]) }
      { httpMethod := some "PUT",
        pathParameters := some ⟨some "T", some "U", some "t1"⟩,
        body := .rawStr "body" }
      ⟨some "T", some "U", some "t1"⟩ "T" "U" [("PK", .str "x")]
      rfl rfl rfl rfl (by decide) (by decide) rfl).1 rfl

/-- C2: a POST with a valid path and a JSON object body: without a title
key the handler returns 400 "title is required" and writes nothing; with a
title it builds the item under PK "tenant#T#user#U" and SK "task#id" for
the freshly drawn id, defaulting description to null and status to
"pending", stores it, and returns 201 with that full item. -/
theorem create_task_contract (w : World) (ev : Event) (pp : PathParams)
    (t u : String) (fields : List (String × JVal))
    (hm : ev.httpMethod = some "POST")
    (hpp : ev.pathParameters = some pp) (ht : pp.tenantId = some t)
    (hu : pp.userId = some u) (ht' : t ≠ "") (hu' : u ≠ "")
    (hb : validate_body w.parse ev = .ok (.obj fields)) :
    (dictLookup fields "title" = none →
      lambda_handler w ev =
        (.ok (response 400 (.obj [("error", .str "title is required")])), [])) ∧
    (∀ v, dictLookup fields "title" = some v → w.putOutcome = .ok () →
      lambda_handler w ev =
        (.ok (response 201 (.obj
          (created_item ("tenant#" ++ t ++ "#user#" ++ u) t u w.freshId fields))),
         [.putItem ("tenant#" ++ t ++ "#user#" ++ u) ("task#" ++ w.freshId)
            (created_item ("tenant#" ++ t ++ "#user#" ++ u) t u w.freshId
              fields)])) := by
  refine ⟨fun hnone => ?_, fun v hv hput => ?_⟩
  · rw [route_post w ev pp t u hm hpp ht hu ht' hu']
    unfold create_task; rw [hb]
    have hany := (dictLookup_none_iff fields "title").mp hnone
    simp [pyContains, hany]
  · exact create_reduces w ev pp t u fields v hm hpp ht hu ht' hu' hb hv hput

/-- C2 (witness): POST with body given by the object with title "Buy milk"
yields 201 with the stored item (pending status, null description). -/
theorem create_task_contract_witness :
    lambda_handler
      { wBase with parse := fun _ => some (.obj [("title", .str "Buy milk")]) }
      { httpMethod := some "POST",
        pathParameters := some ⟨some "T", some "U", none⟩,
        body := .rawStr "body" } =
      (.ok (response 201 (.obj (created_item ("tenant#" ++ "T" ++ "#user#" ++ "U")
          "T" "U" "uuid-1" [("title", .str "Buy milk")]))),
       [.putItem ("tenant#" ++ "T" ++ "#user#" ++ "U") ("task#" ++ "uuid-1")
          (created_item ("tenant#" ++ "T" ++ "#user#" ++ "U") "T" "U" "uuid-1"
            [("title", .str "Buy milk")])]) :=
  (create_task_contract
      { wBase with parse := fun _ => some (.obj [("title", .str "Buy milk")]) }
      { httpMethod := some "POST",
        pathParameters := some ⟨some "T", some "U", none⟩,
        body := .rawStr "body" }
      ⟨some "T", some "U", none⟩ "T" "U" [("title", .str "Buy milk")]
      rfl rfl rfl rfl (by decide) (by decide) rfl).2
    (.str "Buy milk") rfl rfl

/-- C8 (counterexample): a null request body is rejected with the
invalid-JSON 400 and is not treated as the empty object: json.loads(None)
raises TypeError before any parsing, so even a parser mapping every string
to the empty object cannot make a null body validate. -/
theorem null_body_not_empty_object :
    validate_body (fun _ => some (.obj []))
        { httpMethod := some "POST", pathParameters := none,
          body := .nullBody } =
      .error invalidJsonResp ∧
    validate_body (fun _ => some (.obj []))
        { httpMethod := some "POST", pathParameters := none,
          body := .nullBody } ≠
      .ok (.obj []) :=
  ⟨rfl, by simp [validate_body]⟩

/-- C8 (amended): a raw body that does not parse as JSON yields the 400
"Invalid JSON in request body"; an absent body key is treated as the empty
object; a null body and the empty-string body are rejected with that same
400 (json.loads raises on both), not treated as empty objects. The parser
is any model of json.loads satisfying the two JSON-grammar facts used. -/
theorem validate_body_contract (parse : String → Option JVal) (ev : Event)
    (hobj : parse "\x7b\x7d" = some (.obj []))
    (hemp : parse "" = none) :
    (∀ s, ev.body = .rawStr s → parse s = none →
      validate_body parse ev = .error invalidJsonResp) ∧
    (ev.body = .absent → validate_body parse ev = .ok (.obj [])) ∧
    (ev.body = .nullBody → validate_body parse ev = .error invalidJsonResp) ∧
    (ev.body = .rawStr "" →
      validate_body parse ev = .error invalidJsonResp) := by
  refine ⟨fun s hs hp => ?_, fun h => ?_, fun h => ?_, fun h => ?_⟩ <;>
    simp [validate_body, *]

/-- C8 (witness): with the concrete base parser, an absent body key parses
to the empty object and an empty-string body is rejected. -/
theorem validate_body_contract_witness :
    validate_body wBase.parse
      { httpMethod := some "POST", pathParameters := none, body := .absent } =
      .ok (.obj []) ∧
    validate_body wBase.parse
      { httpMethod := some "POST", pathParameters := none,
        body := .rawStr "" } =
      .error invalidJsonResp :=
  ⟨(validate_body_contract wBase.parse
      { httpMethod := some "POST", pathParameters := none, body := .absent }
      rfl rfl).2.1 rfl,
   (validate_body_contract wBase.parse
      { httpMethod := some "POST", pathParameters := none, body := .rawStr "" }
      rfl rfl).2.2.2 rfl⟩

/-- C6: starting from a state with no stored item, a Create with a titled
object body followed by a Get for the taskId the Create returned (against a
read-after-write consistent store) yields 200 with an item identical to the
Create 201 response body; both calls address the same composite key. -/
theorem create_then_get_roundtrip
    (w1 w2 : World) (ev1 ev2 : Event) (t u : String)
    (fields : List (String × JVal)) (v : JVal)
    (ht' : t ≠ "") (hu' : u ≠ "") (hfresh : w1.freshId ≠ "")
    (h1m : ev1.httpMethod = some "POST")
    (h1p : ev1.pathParameters = some ⟨some t, some u, none⟩)
    (h1b : validate_body w1.parse ev1 = .ok (.obj fields))
    (hv : dictLookup fields "title" = some v)
    (hput : w1.putOutcome = .ok ())
    (h2m : ev2.httpMethod = some "GET")
    (h2p : ev2.pathParameters = some ⟨some t, some u, some w1.freshId⟩)
    (hcons : w2.getOutcome = .ok (storeLookup
      (applyCalls [] (lambda_handler w1 ev1).2)
      ("tenant#" ++ t ++ "#user#" ++ u) ("task#" ++ w1.freshId))) :
    lambda_handler w1 ev1 =
      (.ok (response 201 (.obj
        (created_item ("tenant#" ++ t ++ "#user#" ++ u) t u w1.freshId fields))),
       [.putItem ("tenant#" ++ t ++ "#user#" ++ u) ("task#" ++ w1.freshId)
          (created_item ("tenant#" ++ t ++ "#user#" ++ u) t u w1.freshId
            fields)]) ∧
    lambda_handler w2 ev2 =
      (.ok (response 200 (.obj
        (created_item ("tenant#" ++ t ++ "#user#" ++ u) t u w1.freshId fields))),
       [.getItem ("tenant#" ++ t ++ "#user#" ++ u)
          (some ("task#" ++ w1.freshId))]) := by
  have h1 := create_reduces w1 ev1 ⟨some t, some u, none⟩ t u fields v
    h1m h1p rfl rfl ht' hu' h1b hv hput
  refine ⟨h1, ?_⟩
  have hlook : storeLookup (applyCalls [] (lambda_handler w1 ev1).2)
      ("tenant#" ++ t ++ "#user#" ++ u) ("task#" ++ w1.freshId) =
      some (created_item ("tenant#" ++ t ++ "#user#" ++ u) t u w1.freshId
        fields) := by
    rw [h1]
    simp [applyCalls, applyCall, storePut, storeLookup]
  have hroute := route_get w2 ev2 ⟨some t, some u, some w1.freshId⟩ t u
    h2m h2p rfl rfl ht' hu'
  rw [hroute]
  unfold get_task
  rw [hcons, hlook]
  simp [build_keys, hfresh]

/-- C6 (witness): the round trip at concrete tenant "T", user "U", body
title "Buy milk" and generated id "uuid-1". -/
theorem create_then_get_roundtrip_witness :
    lambda_handler
      { wBase with parse := fun _ => some (.obj [("title", .str "Buy milk")]) }
      { httpMethod := some "POST",
        pathParameters := some ⟨some "T", some "U", none⟩,
        body := .rawStr "body" } =
      (.ok (response 201 (.obj (created_item ("tenant#" ++ "T" ++ "#user#" ++ "U")
          "T" "U" "uuid-1" [("title", .str "Buy milk")]))),
       [.putItem ("tenant#" ++ "T" ++ "#user#" ++ "U") ("task#" ++ "uuid-1")
          (created_item ("tenant#" ++ "T" ++ "#user#" ++ "U") "T" "U" "uuid-1"
            [("title", .str "Buy milk")])]) ∧
    lambda_handler
      { wBase with getOutcome := .ok (some (created_item
          ("tenant#" ++ "T" ++ "#user#" ++ "U") "T" "U" "uuid-1"
          [("title", .str "Buy milk")])) }
      { httpMethod := some "GET",
        pathParameters := some ⟨some "T", some "U", some "uuid-1"⟩,
        body := .absent } =
      (.ok (response 200 (.obj (created_item ("tenant#" ++ "T" ++ "#user#" ++ "U")
          "T" "U" "uuid-1" [("title", .str "Buy milk")]))),
       [.getItem ("tenant#" ++ "T" ++ "#user#" ++ "U")
          (some ("task#" ++ "uuid-1"))]) :=
  create_then_get_roundtrip
    { wBase with parse := fun _ => some (.obj [("title", .str "Buy milk")]) }
    { wBase with getOutcome := .ok (some (created_item
        ("tenant#" ++ "T" ++ "#user#" ++ "U") "T" "U" "uuid-1"
        [("title", .str "Buy milk")])) }
    { httpMethod := some "POST",
      pathParameters := some ⟨some "T", some "U", none⟩,
      body := .rawStr "body" }
    { httpMethod := some "GET",
      pathParameters := some ⟨some "T", some "U", some "uuid-1"⟩,
      body := .absent }
    "T" "U" [("title", .str "Buy milk")] (.str "Buy milk")
    (by decide) (by decide) (by decide) rfl rfl rfl rfl rfl rfl rfl rfl

/-- C10: with taskId absent from the path or given as the empty string, the
secondary key is None either way (the two are indistinguishable); a GET is
not rejected by path validation but issues the store call with SK None, and
a store error there is returned as a 500; on PUT and DELETE a
non-conditional store error in the same situation propagates uncaught. -/
theorem missing_task_id_behavior :
    (∀ t u : String, (build_keys t u none).2 = none ∧
      (build_keys t u (some "")).2 = none) ∧
    (∀ (w : World) (ev : Event) (pp : PathParams) (t u : String),
      ev.httpMethod = some "GET" → ev.pathParameters = some pp →
      pp.tenantId = some t → pp.userId = some u → t ≠ "" → u ≠ "" →
      (pp.taskId = none ∨ pp.taskId = some "") →
      ((lambda_handler w ev).2 =
        [.getItem ("tenant#" ++ t ++ "#user#" ++ u) none] ∧
       ∀ e, w.getOutcome = .error e →
         (lambda_handler w ev).1 =
           .ok (response 500 (.obj [("error",
             .str "Internal server error")])))) ∧
    (∀ (w : World) (ev : Event) (pp : PathParams) (t u : String)
       (fields : List (String × JVal)),
      ev.httpMethod = some "PUT" → ev.pathParameters = some pp →
      pp.tenantId = some t → pp.userId = some u → t ≠ "" → u ≠ "" →
      (pp.taskId = none ∨ pp.taskId = some "") →
      validate_body w.parse ev = .ok (.obj fields) →
      fields.filter (fun kv => !(protected_fields.contains kv.1)) ≠ [] →
      ∀ e, w.updOutcome = .error e →
        e ≠ .clientError "ConditionalCheckFailedException" →
        (lambda_handler w ev).1 = .error e) ∧
    (∀ (w : World) (ev : Event) (pp : PathParams) (t u : String),
      ev.httpMethod = some "DELETE" → ev.pathParameters = some pp →
      pp.tenantId = some t → pp.userId = some u → t ≠ "" → u ≠ "" →
      (pp.taskId = none ∨ pp.taskId = some "") →
      ∀ e, w.delOutcome = .error e →
        e ≠ .clientError "ConditionalCheckFailedException" →
        (lambda_handler w ev).1 = .error e) := by
  refine ⟨fun t u => ⟨rfl, rfl⟩, ?_, ?_, ?_⟩
  · intro w ev pp t u hm hpp ht hu ht' hu' htid
    have hroute := route_get w ev pp t u hm hpp ht hu ht' hu'
    have hsk : (build_keys t u pp.taskId).2 = none := by
      rcases htid with h | h <;> rw [h] <;> rfl
    have hpk : (build_keys t u pp.taskId).1 =
        "tenant#" ++ t ++ "#user#" ++ u := rfl
    constructor
    · rw [hroute]; unfold get_task
      rw [hpk, hsk]
      cases hres : w.getOutcome with
      | error e => rfl
      | ok r => cases r <;> rfl
    · intro e he
      rw [hroute]; unfold get_task; rw [he]
  · intro w ev pp t u fields hm hpp ht hu ht' hu' htid hb hne e he hng
    have hroute := route_put w ev pp t u hm hpp ht hu ht' hu'
    have hne' : ¬ ((fields.filter
        (fun kv => !(protected_fields.contains kv.1))).map
        (fun kv => kv.1 ++ " = :" ++ kv.1) = []) :=
      fun h => hne (List.map_eq_nil_iff.mp h)
    rw [hroute]; unfold update_task; rw [hb, he]
    simp only [pyItems]; rw [if_neg hne']; simp [hng]
  · intro w ev pp t u hm hpp ht hu ht' hu' htid e he hng
    have hroute := route_delete w ev pp t u hm hpp ht hu ht' hu'
    rw [hroute]; unfold delete_task; rw [he]; simp [hng]

/-- C10 (witness): a GET with no taskId issues a store call with SK None
and returns a 500 when the store read fails. -/
theorem missing_task_id_behavior_witness :
    (lambda_handler
      { wBase with getOutcome := .error (.other "ValidationException") }
      { httpMethod := some "GET",
        pathParameters := some ⟨some "T", some "U", none⟩,
        body := .absent }).2 =
      [.getItem ("tenant#" ++ "T" ++ "#user#" ++ "U") none] ∧
    (lambda_handler
      { wBase with getOutcome := .error (.other "ValidationException") }
      { httpMethod := some "GET",
        pathParameters := some ⟨some "T", some "U", none⟩,
        body := .absent }).1 =
      .ok (response 500 (.obj [("error", .str "Internal server error")])) :=
  ⟨(missing_task_id_behavior.2.1
      { wBase with getOutcome := .error (.other "ValidationException") }
      { httpMethod := some "GET",
        pathParameters := some ⟨some "T", some "U", none⟩,
        body := .absent }
      ⟨some "T", some "U", none⟩ "T" "U"
      rfl rfl rfl rfl (by decide) (by decide) (Or.inl rfl)).1,
   (missing_task_id_behavior.2.1
      { wBase with getOutcome := .error (.other "ValidationException") }
      { httpMethod := some "GET",
        pathParameters := some ⟨some "T", some "U", none⟩,
        body := .absent }
      ⟨some "T", some "U", none⟩ "T" "U"
      rfl rfl rfl rfl (by decide) (by decide) (Or.inl rfl)).2
     (.other "ValidationException") rfl⟩

end TaskHandler
